import Mathlib

/-!
Shallow embedding of three CLI subcommands of a distributed KV store
client: kv export, kv delete, snapshot restore (src/command/kv_export.go
and src/command/snapshot_restore.go).

Each Run function is modelled as a pure function of the parsed flag
values, the positional arguments remaining after flag parsing, and an
environment record that supplies the outcomes of the external world
(the token found in the default client configuration, whether client
construction succeeds, and the result of each store call the command
may issue). The result records the exit code, the error and info
messages emitted through the Ui in order, whether client construction
was attempted, the token placed in the client configuration, and the
store calls that were dispatched.
-/

namespace Consul

/-- A key-value pair as returned by the store client (api.KVPair):
key, flags (uint64) and raw value bytes. -/
structure KVPair where
  Key : String
  Flags : Nat
  Value : List Nat
deriving DecidableEq

/-- The standard base64 alphabet used by base64.StdEncoding. -/
def base64Alphabet : List Char :=
  "ABCDEFGHIJKLMNOPQRSTUVWXYZabcdefghijklmnopqrstuvwxyz0123456789+/".toList

/-- Character for a 6-bit group. -/
def b64char (n : Nat) : Char := base64Alphabet.getD n 'A'

/-- Standard base64 encoding with padding, as base64.StdEncoding.EncodeToString:
groups of three bytes become four alphabet characters; a trailing group of one
byte becomes two characters plus two padding characters, a trailing group of
two bytes becomes three characters plus one padding character. Bytes are
reduced mod 256 to model their 8-bit width. -/
def base64EncodeChars : List Nat → List Char
  | [] => []
  | [b0] =>
      let n := (b0 % 256) * 16
      [b64char (n / 64), b64char (n % 64), '=', '=']
  | [b0, b1] =>
      let n := ((b0 % 256) * 256 + (b1 % 256)) * 4
      [b64char (n / 4096), b64char (n / 64 % 64), b64char (n % 64), '=']
  | b0 :: b1 :: b2 :: rest =>
      let n := (b0 % 256) * 65536 + (b1 % 256) * 256 + (b2 % 256)
      b64char (n / 262144) :: b64char (n / 4096 % 64) :: b64char (n / 64 % 64) ::
        b64char (n % 64) :: base64EncodeChars rest

/-- String form of the standard base64 encoding. -/
def base64Encode (bs : List Nat) : String := String.mk (base64EncodeChars bs)

/-- One step of leading-slash normalization on a character list: drop the
first character when it is '/' (the Go code tests the first byte, which
for UTF-8 text is '/' exactly when the first character is). -/
def stripSlashList : List Char → List Char
  | [] => []
  | c :: rest => if c = '/' then rest else c :: rest

/-- Leading-slash normalization applied by both the export and the delete
command before the key is used in any store call. -/
def stripLeadingSlash (s : String) : String := String.mk (stripSlashList s.toList)

/-- Whether a character list begins with two '/' characters. -/
def twoSlashList : List Char → Bool
  | c :: d :: _ => c = '/' && d = '/'
  | _ => false

/-- Whether a string begins with two '/' characters. -/
def startsWithTwoSlashes (s : String) : Bool := twoSlashList s.toList

/-- A call issued against the external cluster store client. -/
inductive StoreCall where
  | list (key : String) (datacenter : String) (allowStale : Bool)
  | deleteTree (key : String) (datacenter : String)
  | deleteCAS (key : String) (modifyIndex : Nat) (datacenter : String)
  | delete (key : String) (datacenter : String)
  | restore
deriving DecidableEq

/-- The key argument carried by a store call (empty for restore, which
takes a stream rather than a key). -/
def StoreCall.keyOf : StoreCall → String
  | .list k _ _ => k
  | .deleteTree k _ => k
  | .deleteCAS k _ _ => k
  | .delete k _ => k
  | .restore => ""

/-- The message printed for a surplus of positional arguments. -/
def tooManyMsg (n : Nat) : String :=
  "Too many arguments (expected 1, got " ++ toString n ++ ")"

/-- Parsed flag values of the delete command, after flag parsing succeeded. -/
structure DeleteOpts where
  datacenter : String
  token : String
  cas : Bool
  modifyIndex : Nat
  recurse : Bool
  httpAddr : String
deriving DecidableEq

/-- Environment of one delete invocation: the token already present in the
default client configuration (api.DefaultConfig reads it from the process
environment), the result of client construction (some errText when
api.NewClient fails), and the outcome of each store call the command may
issue. -/
structure DeleteEnv where
  defaultToken : String
  clientErr : Option String
  deleteTreeErr : Option String
  deleteCASResult : Except String Bool
  deleteErr : Option String

/-- Observable outcome of a delete invocation. -/
structure DeleteResult where
  exitCode : Nat
  errors : List String
  infos : List String
  clientAttempted : Bool
  clientToken : String
  calls : List StoreCall
deriving DecidableEq

/-- The transport-failure message of a compare-and-swap delete. -/
def casTransportMsg (key e : String) : String :=
  "Error! Did not delete key " ++ key ++ ": " ++ e

/-- The failure message of a compare-and-swap delete rejected by the store. -/
def casFailedMsg (key : String) : String :=
  "Error! Did not delete key " ++ key ++ ": CAS failed"

/-- The delete command after the positional argument has been selected:
normalization, the four validation rules in source order (the rule about
a modify index without cas emits its message without returning), client
construction with its token defaulting rule, then dispatch of exactly one
store call. -/
def deleteAfterArgs (opts : DeleteOpts) (key0 : String) (env : DeleteEnv) : DeleteResult :=
  let key := stripLeadingSlash key0
  if key = "" ∧ opts.recurse = false then
    { exitCode := 1, errors := ["Error! Missing KEY argument"], infos := [],
      clientAttempted := false, clientToken := "", calls := [] }
  else if opts.cas = true ∧ opts.modifyIndex = 0 then
    { exitCode := 1, errors := ["Must specify -modify-index with -cas!"], infos := [],
      clientAttempted := false, clientToken := "", calls := [] }
  else
    let warn := if opts.modifyIndex ≠ 0 ∧ opts.cas = false then
      ["Cannot specify -modify-index without -cas!"] else []
    if opts.recurse = true ∧ opts.cas = true then
      { exitCode := 1, errors := warn ++ ["Cannot specify both -cas and -recurse!"],
        infos := [], clientAttempted := false, clientToken := "", calls := [] }
    else
      let confToken := if env.defaultToken = "" then opts.token else env.defaultToken
      match env.clientErr with
      | some e =>
          { exitCode := 1, errors := warn ++ ["Error connecting to Consul agent: " ++ e],
            infos := [], clientAttempted := true, clientToken := confToken, calls := [] }
      | none =>
          if opts.recurse then
            match env.deleteTreeErr with
            | some e =>
                { exitCode := 1,
                  errors := warn ++ ["Error! Did not delete prefix " ++ key ++ ": " ++ e],
                  infos := [], clientAttempted := true, clientToken := confToken,
                  calls := [.deleteTree key opts.datacenter] }
            | none =>
                { exitCode := 0, errors := warn,
                  infos := ["Success! Deleted keys with prefix: " ++ key],
                  clientAttempted := true, clientToken := confToken,
                  calls := [.deleteTree key opts.datacenter] }
          else if opts.cas then
            match env.deleteCASResult with
            | .error e =>
                { exitCode := 1, errors := warn ++ [casTransportMsg key e],
                  infos := [], clientAttempted := true, clientToken := confToken,
                  calls := [.deleteCAS key opts.modifyIndex opts.datacenter] }
            | .ok false =>
                { exitCode := 1, errors := warn ++ [casFailedMsg key],
                  infos := [], clientAttempted := true, clientToken := confToken,
                  calls := [.deleteCAS key opts.modifyIndex opts.datacenter] }
            | .ok true =>
                { exitCode := 0, errors := warn,
                  infos := ["Success! Deleted key: " ++ key],
                  clientAttempted := true, clientToken := confToken,
                  calls := [.deleteCAS key opts.modifyIndex opts.datacenter] }
          else
            match env.deleteErr with
            | some e =>
                { exitCode := 1, errors := warn ++ ["Error deleting key " ++ key ++ ": " ++ e],
                  infos := [], clientAttempted := true, clientToken := confToken,
                  calls := [.delete key opts.datacenter] }
            | none =>
                { exitCode := 0, errors := warn,
                  infos := ["Success! Deleted key: " ++ key],
                  clientAttempted := true, clientToken := confToken,
                  calls := [.delete key opts.datacenter] }

/-- KVDeleteCommand.Run: select the key from the positional arguments
(zero arguments mean an empty key, two or more are an error), then run
the validated body. -/
def KVDeleteCommand.Run (opts : DeleteOpts) (args : List String) (env : DeleteEnv) :
    DeleteResult :=
  match args with
  | [] => deleteAfterArgs opts "" env
  | [a] => deleteAfterArgs opts a env
  | _ =>
      { exitCode := 1, errors := [tooManyMsg args.length], infos := [],
        clientAttempted := false, clientToken := "", calls := [] }

/-- Parsed flag values of the export command. -/
structure ExportOpts where
  datacenter : String
  token : String
  stale : Bool
  httpAddr : String
deriving DecidableEq

/-- Environment of one export invocation: the token in the default client
configuration, the result of client construction, and the answer of the
list-by-prefix store call (an error or the ordered pairs). -/
structure ExportEnv where
  defaultToken : String
  clientErr : Option String
  listResult : Except String (List KVPair)

/-- One serialized record of the export output (kvExportEntry). -/
structure kvExportEntry where
  Key : String
  Flags : Nat
  Value : String
deriving DecidableEq

/-- toExportEntry: the value bytes are base64-encoded with the standard
encoding. -/
def toExportEntry (pair : KVPair) : kvExportEntry :=
  { Key := pair.Key, Flags := pair.Flags, Value := base64Encode pair.Value }

/-- A lower-case hexadecimal digit. -/
def hexDigit (n : Nat) : Char := "0123456789abcdef".toList.getD n '0'

/-- JSON string escaping as performed by the Go encoder with its default
HTML escaping: quote, backslash, newline, carriage return and tab get a
two-character escape, the angle brackets and ampersand and remaining
control characters get a six-character unicode escape. -/
def jsonEscapeChar (c : Char) : List Char :=
  if c = '"' then ['\\', '"']
  else if c = '\\' then ['\\', '\\']
  else if c = '\n' then ['\\', 'n']
  else if c = '\r' then ['\\', 'r']
  else if c = '\t' then ['\\', 't']
  else if c = '<' then ['\\', 'u', '0', '0', '3', 'c']
  else if c = '>' then ['\\', 'u', '0', '0', '3', 'e']
  else if c = '&' then ['\\', 'u', '0', '0', '2', '6']
  else if c.toNat < 32 then
    ['\\', 'u', '0', '0', hexDigit (c.toNat / 16), hexDigit (c.toNat % 16)]
  else [c]

/-- A JSON string literal. -/
def jsonQuote (s : String) : String :=
  "\"" ++ String.mk (s.toList.map jsonEscapeChar).flatten ++ "\""

/-- One element of the exported JSON array, rendered at nesting depth one
with a tab indent, in the field order of the kvExportEntry struct tags. -/
def renderEntry (e : kvExportEntry) : String :=
  "\t\x7b\n\t\t\"key\": " ++ jsonQuote e.Key ++ ",\n\t\t\"flags\": " ++
    toString e.Flags ++ ",\n\t\t\"value\": " ++ jsonQuote e.Value ++ "\n\t\x7d"

/-- json.MarshalIndent of the exported slice with an empty line prefix and
a tab indent: an empty slice renders as a bare pair of brackets, otherwise
the elements are joined with a comma and newline inside brackets. -/
def marshalIndent : List kvExportEntry → String
  | [] => "[]"
  | es => "[\n" ++ String.intercalate ",\n" (es.map renderEntry) ++ "\n]"

/-- Observable outcome of an export invocation. The exported field mirrors
the exported slice built from the listed pairs (empty when execution never
reached that point). -/
structure ExportResult where
  exitCode : Nat
  errors : List String
  infos : List String
  clientAttempted : Bool
  clientToken : String
  calls : List StoreCall
  exported : List kvExportEntry
deriving DecidableEq

/-- The export command after the positional argument has been selected:
normalization, client construction with its token override rule, the
list call, then serialization of every pair in store order. -/
def exportAfterArgs (opts : ExportOpts) (key0 : String) (env : ExportEnv) : ExportResult :=
  let key := stripLeadingSlash key0
  let confToken := if opts.token ≠ "" then opts.token else env.defaultToken
  match env.clientErr with
  | some e =>
      { exitCode := 1, errors := ["Error connecting to Consul agent: " ++ e],
        infos := [], clientAttempted := true, clientToken := confToken,
        calls := [], exported := [] }
  | none =>
      match env.listResult with
      | .error e =>
          { exitCode := 1, errors := ["Error querying Consul agent: " ++ e],
            infos := [], clientAttempted := true, clientToken := confToken,
            calls := [.list key opts.datacenter opts.stale], exported := [] }
      | .ok pairs =>
          let exported := pairs.map toExportEntry
          { exitCode := 0, errors := [],
            infos := [marshalIndent exported],
            clientAttempted := true, clientToken := confToken,
            calls := [.list key opts.datacenter opts.stale], exported := exported }

/-- KVExportCommand.Run: select the key from the positional arguments
(zero arguments mean the whole tree, two or more are an error), then run
the body. -/
def KVExportCommand.Run (opts : ExportOpts) (args : List String) (env : ExportEnv) :
    ExportResult :=
  match args with
  | [] => exportAfterArgs opts "" env
  | [a] => exportAfterArgs opts a env
  | _ =>
      { exitCode := 1, errors := [tooManyMsg args.length], infos := [],
        clientAttempted := false, clientToken := "", calls := [], exported := [] }

/-- Parsed flag values of the snapshot restore command. -/
structure RestoreOpts where
  datacenter : String
  token : String
  httpAddr : String
deriving DecidableEq

/-- Environment of one snapshot restore invocation: the token in the
default client configuration, the result of client construction, the
result of opening the snapshot file (some errText when os.Open fails),
and the result of the restore stream call. -/
structure RestoreEnv where
  defaultToken : String
  clientErr : Option String
  openErr : Option String
  restoreErr : Option String

/-- Observable outcome of a snapshot restore invocation. -/
structure RestoreResult where
  exitCode : Nat
  errors : List String
  infos : List String
  clientAttempted : Bool
  clientToken : String
  openAttempted : Bool
  restoreCalled : Bool
deriving DecidableEq

/-- SnapshotRestoreCommand.Run: exactly one positional argument is the
file path; client construction precedes opening the file, which precedes
the restore stream call. -/
def SnapshotRestoreCommand.Run (opts : RestoreOpts) (args : List String)
    (env : RestoreEnv) : RestoreResult :=
  match args with
  | [] =>
      { exitCode := 1, errors := ["Missing FILE argument"], infos := [],
        clientAttempted := false, clientToken := "",
        openAttempted := false, restoreCalled := false }
  | [_file] =>
      let confToken := if opts.token ≠ "" then opts.token else env.defaultToken
      match env.clientErr with
      | some e =>
          { exitCode := 1, errors := ["Error connecting to Consul agent: " ++ e],
            infos := [], clientAttempted := true, clientToken := confToken,
            openAttempted := false, restoreCalled := false }
      | none =>
          match env.openErr with
          | some e =>
              { exitCode := 1, errors := ["Error opening snapshot file: " ++ e],
                infos := [], clientAttempted := true, clientToken := confToken,
                openAttempted := true, restoreCalled := false }
          | none =>
              match env.restoreErr with
              | some e =>
                  { exitCode := 1, errors := ["Error restoring snapshot: " ++ e],
                    infos := [], clientAttempted := true, clientToken := confToken,
                    openAttempted := true, restoreCalled := true }
              | none =>
                  { exitCode := 0, errors := [], infos := ["Restored snapshot"],
                    clientAttempted := true, clientToken := confToken,
                    openAttempted := true, restoreCalled := true }
  | _ =>
      { exitCode := 1, errors := [tooManyMsg args.length], infos := [],
        clientAttempted := false, clientToken := "",
        openAttempted := false, restoreCalled := false }

/-- The key an invocation uses: the single positional argument (empty
when absent) with a leading slash stripped. -/
def normKey (args : List String) : String :=
  stripLeadingSlash (match args with | [a] => a | _ => "")

/-! Concrete invocations used by counterexamples and witnesses. -/

/-- Delete invocation with a nonzero modify index and cas unset. -/
def cx1opts : DeleteOpts := ⟨"", "", false, 1, false, ""⟩

/-- Benign delete environment. -/
def cx1env : DeleteEnv := ⟨"", none, none, Except.ok true, none⟩

/-- Delete invocation with a nonzero modify index and cas unset. -/
def w1opts : DeleteOpts := ⟨"dc1", "", false, 7, false, "addr"⟩

/-- Benign delete environment. -/
def w1env : DeleteEnv := ⟨"", none, none, Except.ok true, none⟩

/-- Delete invocation with recurse unset. -/
def w3opts : DeleteOpts := ⟨"", "", false, 0, false, ""⟩

/-- Benign delete environment. -/
def w3env : DeleteEnv := ⟨"", none, none, Except.ok true, none⟩

/-- Delete invocation with cas set and modify index zero. -/
def w4opts : DeleteOpts := ⟨"", "tok", true, 0, false, ""⟩

/-- Benign delete environment. -/
def w4env : DeleteEnv := ⟨"", none, none, Except.ok true, none⟩

/-- Delete invocation with both recurse and cas set. -/
def w5opts : DeleteOpts := ⟨"", "", true, 3, true, ""⟩

/-- Benign delete environment. -/
def w5env : DeleteEnv := ⟨"", none, none, Except.ok true, none⟩

/-- Compare-and-swap delete invocation. -/
def cx6opts : DeleteOpts := ⟨"", "", true, 5, false, ""⟩

/-- Environment whose store call fails with an error text equal to the
text of the swap-rejection message tail. -/
def cx6envErr : DeleteEnv := ⟨"", none, none, Except.error "CAS failed", none⟩

/-- Environment whose store call succeeds but reports a rejected swap. -/
def cx6envFail : DeleteEnv := ⟨"", none, none, Except.ok false, none⟩

/-- Compare-and-swap delete invocation. -/
def w6opts : DeleteOpts := ⟨"", "", true, 9, false, ""⟩

/-- Environment whose store call fails with a transport error. -/
def w6env : DeleteEnv := ⟨"", none, none, Except.error "boom", none⟩

/-- Export invocation. -/
def w7opts : ExportOpts := ⟨"", "", false, ""⟩

/-- Environment listing the two pairs of the spec example. -/
def w7env : ExportEnv :=
  ⟨"", none, Except.ok [⟨"a", 0, [120]⟩, ⟨"a/b", 0, [121]⟩]⟩

/-- Snapshot restore invocation. -/
def w8opts : RestoreOpts := ⟨"", "", ""⟩

/-- Benign restore environment. -/
def w8env : RestoreEnv := ⟨"", none, none, none⟩

/-- Snapshot restore invocation. -/
def w9opts : RestoreOpts := ⟨"", "", ""⟩

/-- Environment in which opening the snapshot file fails. -/
def w9env : RestoreEnv := ⟨"", none, some "no such file", none⟩

/-- Export invocation with a flag token. -/
def w10eopts : ExportOpts := ⟨"", "flagtok", false, ""⟩

/-- Export environment with a default-config token. -/
def w10eenv : ExportEnv := ⟨"envtok", none, Except.ok []⟩

/-- Delete invocation with a flag token. -/
def w10dopts : DeleteOpts := ⟨"", "flagtok", false, 0, false, ""⟩

/-- Delete environment with a default-config token. -/
def w10denv : DeleteEnv := ⟨"envtok", none, none, Except.ok true, none⟩

/-! Helper lemmas. -/

theorem stripSlashList_idem (l : List Char) (h : twoSlashList l = false) :
    stripSlashList (stripSlashList l) = stripSlashList l := by
  match l with
  | [] => rfl
  | [c] =>
    by_cases hc : c = '/' <;> simp [stripSlashList, hc]
  | c :: d :: rest =>
    by_cases hc : c = '/'
    · subst hc
      by_cases hd : d = '/'
      · subst hd; simp [twoSlashList] at h
      · simp [stripSlashList, hd]
    · simp [stripSlashList, hc]

theorem stripLeadingSlash_idem (s : String) (h : startsWithTwoSlashes s = false) :
    stripLeadingSlash (stripLeadingSlash s) = stripLeadingSlash s := by
  unfold stripLeadingSlash
  exact congrArg String.mk (stripSlashList_idem s.toList h)

theorem exportAfterArgs_calls_key (opts : ExportOpts) (k : String) (env : ExportEnv)
    (c : StoreCall) (hc : c ∈ (exportAfterArgs opts k env).calls) :
    c.keyOf = stripLeadingSlash k := by
  unfold exportAfterArgs at hc
  obtain ⟨dt, ce, lr⟩ := env
  cases ce with
  | some e => simp at hc
  | none =>
    cases lr with
    | error e =>
      simp at hc
      subst hc; rfl
    | ok pairs =>
      simp at hc
      subst hc; rfl

theorem deleteAfterArgs_calls_key (opts : DeleteOpts) (k : String) (env : DeleteEnv)
    (c : StoreCall) (hc : c ∈ (deleteAfterArgs opts k env).calls) :
    c.keyOf = stripLeadingSlash k := by
  unfold deleteAfterArgs at hc
  obtain ⟨dt, ce, dte, dcr, de⟩ := env
  dsimp only at hc
  split at hc
  · simp at hc
  · split at hc
    · simp at hc
    · split at hc
      · simp at hc
      · cases ce with
        | some e => simp at hc
        | none =>
          by_cases hr : opts.recurse <;> simp only [hr] at hc
          · cases dte <;> simp at hc <;> (subst hc; rfl)
          · by_cases hcas : opts.cas <;> simp only [hcas] at hc
            · cases dcr with
              | error e => simp at hc; subst hc; rfl
              | ok b => cases b <;> simp at hc <;> (subst hc; rfl)
            · cases de <;> simp at hc <;> (subst hc; rfl)

theorem deleteAfterArgs_missing_key (opts : DeleteOpts) (k : String) (env : DeleteEnv)
    (hrec : opts.recurse = false) (hk : stripLeadingSlash k = "") :
    deleteAfterArgs opts k env =
      { exitCode := 1, errors := ["Error! Missing KEY argument"], infos := [],
        clientAttempted := false, clientToken := "", calls := [] } := by
  unfold deleteAfterArgs
  simp [hk, hrec]

theorem deleteAfterArgs_cas_no_index (opts : DeleteOpts) (k : String) (env : DeleteEnv)
    (hcas : opts.cas = true) (hmi : opts.modifyIndex = 0) :
    (deleteAfterArgs opts k env).exitCode = 1 ∧
    (deleteAfterArgs opts k env).errors ≠ [] ∧
    (deleteAfterArgs opts k env).clientAttempted = false ∧
    (deleteAfterArgs opts k env).calls = [] := by
  by_cases h1 : stripLeadingSlash k = "" ∧ opts.recurse = false
  · unfold deleteAfterArgs
    simp [h1.1, h1.2]
  · unfold deleteAfterArgs
    simp [h1, hcas, hmi]

theorem deleteAfterArgs_recurse_cas (opts : DeleteOpts) (k : String) (env : DeleteEnv)
    (hrec : opts.recurse = true) (hcas : opts.cas = true) :
    (deleteAfterArgs opts k env).exitCode = 1 ∧
    (deleteAfterArgs opts k env).errors ≠ [] ∧
    (deleteAfterArgs opts k env).clientAttempted = false ∧
    (deleteAfterArgs opts k env).calls = [] := by
  unfold deleteAfterArgs
  by_cases hmi : opts.modifyIndex = 0 <;>
    simp [hrec, hcas, hmi]

theorem deleteAfterArgs_index_no_cas (opts : DeleteOpts) (k : String) (env : DeleteEnv)
    (hmi : opts.modifyIndex ≠ 0) (hcas : opts.cas = false)
    (hkey : stripLeadingSlash k ≠ "" ∨ opts.recurse = true) :
    (deleteAfterArgs opts k env).errors.head? =
      some "Cannot specify -modify-index without -cas!" ∧
    (env.clientErr = none →
      (opts.recurse = true →
        (deleteAfterArgs opts k env).calls =
          [.deleteTree (stripLeadingSlash k) opts.datacenter] ∧
        (deleteAfterArgs opts k env).exitCode =
          (if env.deleteTreeErr.isSome then 1 else 0)) ∧
      (opts.recurse = false →
        (deleteAfterArgs opts k env).calls =
          [.delete (stripLeadingSlash k) opts.datacenter] ∧
        (deleteAfterArgs opts k env).exitCode =
          (if env.deleteErr.isSome then 1 else 0))) := by
  obtain ⟨dt, ce, dte, dcr, de⟩ := env
  unfold deleteAfterArgs
  rcases hr : opts.recurse with _ | _
  · have hk : stripLeadingSlash k ≠ "" := by
      rcases hkey with h | h
      · exact h
      · rw [hr] at h; exact absurd h (by decide)
    cases ce with
    | some e => simp [hk, hcas, hmi, hr]
    | none => cases de <;> simp [hk, hcas, hmi, hr]
  · cases ce with
    | some e => simp [hcas, hmi, hr]
    | none => cases dte <;> simp [hcas, hmi, hr]

theorem casFailedMsg_eq (k : String) :
    casFailedMsg k = casTransportMsg k "CAS failed" := by
  unfold casFailedMsg casTransportMsg
  apply String.ext
  simp only [String.data_append, List.append_assoc]
  apply congrArg
  apply congrArg
  decide

theorem casMsg_distinct (k e : String) (he : e ≠ "CAS failed") :
    casTransportMsg k e ≠ casFailedMsg k := by
  rw [casFailedMsg_eq]
  intro h
  apply he
  unfold casTransportMsg at h
  have h3 := congrArg String.data h
  simp only [String.data_append] at h3
  exact String.ext (List.append_cancel_left h3)

theorem deleteAfterArgs_cas_dispatch (opts : DeleteOpts) (k : String) (env : DeleteEnv)
    (hcas : opts.cas = true) (hrec : opts.recurse = false) (hmi : opts.modifyIndex ≠ 0)
    (hk : stripLeadingSlash k ≠ "") (hce : env.clientErr = none) :
    (∀ e, env.deleteCASResult = .error e →
      (deleteAfterArgs opts k env).exitCode = 1 ∧
      (deleteAfterArgs opts k env).errors = [casTransportMsg (stripLeadingSlash k) e]) ∧
    (env.deleteCASResult = .ok false →
      (deleteAfterArgs opts k env).exitCode = 1 ∧
      (deleteAfterArgs opts k env).errors = [casFailedMsg (stripLeadingSlash k)]) ∧
    ((deleteAfterArgs opts k env).exitCode = 0 ↔ env.deleteCASResult = .ok true) := by
  obtain ⟨dt, ce, dte, dcr, de⟩ := env
  simp only at hce
  subst hce
  cases dcr with
  | error e =>
    simp [deleteAfterArgs, hcas, hrec, hmi, hk]
  | ok b =>
    cases b <;> simp [deleteAfterArgs, hcas, hrec, hmi, hk]

theorem deleteAfterArgs_client_token (opts : DeleteOpts) (k : String) (env : DeleteEnv)
    (hcas : opts.cas = false) (hk : stripLeadingSlash k ≠ "") :
    (deleteAfterArgs opts k env).clientAttempted = true ∧
    (deleteAfterArgs opts k env).clientToken =
      (if env.defaultToken = "" then opts.token else env.defaultToken) := by
  obtain ⟨dt, ce, dte, dcr, de⟩ := env
  unfold deleteAfterArgs
  rcases hr : opts.recurse with _ | _ <;>
    by_cases hmi : opts.modifyIndex = 0 <;>
    cases ce <;> cases de <;> cases dte <;>
    simp [hcas, hk, hr, hmi]

theorem exportAfterArgs_client_token (opts : ExportOpts) (k : String) (env : ExportEnv) :
    (exportAfterArgs opts k env).clientAttempted = true ∧
    (exportAfterArgs opts k env).clientToken =
      (if opts.token ≠ "" then opts.token else env.defaultToken) := by
  obtain ⟨dt, ce, lr⟩ := env
  unfold exportAfterArgs
  cases ce with
  | some e => simp
  | none => cases lr <;> simp

theorem exportAfterArgs_ok (opts : ExportOpts) (k : String) (env : ExportEnv)
    (pairs : List KVPair) (hce : env.clientErr = none)
    (hlist : env.listResult = .ok pairs) :
    (exportAfterArgs opts k env).exitCode = 0 ∧
    (exportAfterArgs opts k env).exported = pairs.map toExportEntry ∧
    (exportAfterArgs opts k env).infos = [marshalIndent (pairs.map toExportEntry)] ∧
    (exportAfterArgs opts k env).calls =
      [.list (stripLeadingSlash k) opts.datacenter opts.stale] := by
  obtain ⟨dt, ce, lr⟩ := env
  simp only at hce hlist
  subst hce
  subst hlist
  simp [exportAfterArgs]

/-! Claim theorems. -/

/-- C1 counterexample: an invocation with a nonzero -modify-index and
without -cas, but with no key argument and no -recurse, exits 1 at the
missing-key validation and dispatches no store operation, refuting the
claim that every such invocation continues past validation and
dispatches a store call. -/
theorem C1_modify_index_without_cas_counterexample :
    cx1opts.modifyIndex ≠ 0 ∧ cx1opts.cas = false ∧
    (KVDeleteCommand.Run cx1opts [] cx1env).calls = [] ∧
    (KVDeleteCommand.Run cx1opts [] cx1env).exitCode = 1 ∧
    (KVDeleteCommand.Run cx1opts [] cx1env).errors =
      ["Error! Missing KEY argument"] := by
  decide

/-- C1 (amended): for every delete invocation with a nonzero
-modify-index and without -cas that passes the earlier validations (at
most one positional argument, and a nonempty normalized key or -recurse
set), the command prints the modify-index error message first yet does
not terminate there: when client construction succeeds it still
dispatches a store operation (a plain delete, or a recursive delete if
-recurse is set) and returns that operation exit code. -/
theorem C1_modify_index_without_cas_continues
    (opts : DeleteOpts) (args : List String) (env : DeleteEnv)
    (hlen : args.length ≤ 1)
    (hmi : opts.modifyIndex ≠ 0) (hcas : opts.cas = false)
    (hkey : normKey args ≠ "" ∨ opts.recurse = true) :
    (KVDeleteCommand.Run opts args env).errors.head? =
      some "Cannot specify -modify-index without -cas!" ∧
    (env.clientErr = none →
      (opts.recurse = true →
        (KVDeleteCommand.Run opts args env).calls =
          [.deleteTree (normKey args) opts.datacenter] ∧
        (KVDeleteCommand.Run opts args env).exitCode =
          (if env.deleteTreeErr.isSome then 1 else 0)) ∧
      (opts.recurse = false →
        (KVDeleteCommand.Run opts args env).calls =
          [.delete (normKey args) opts.datacenter] ∧
        (KVDeleteCommand.Run opts args env).exitCode =
          (if env.deleteErr.isSome then 1 else 0))) := by
  match args with
  | [] => exact deleteAfterArgs_index_no_cas opts "" env hmi hcas hkey
  | [a] => exact deleteAfterArgs_index_no_cas opts a env hmi hcas hkey
  | a :: b :: t => simp at hlen

/-- C1 witness: a concrete such invocation. -/
theorem C1_modify_index_without_cas_continues_witness :
    (KVDeleteCommand.Run w1opts ["k"] w1env).errors.head? =
      some "Cannot specify -modify-index without -cas!" ∧
    (w1env.clientErr = none →
      (w1opts.recurse = true →
        (KVDeleteCommand.Run w1opts ["k"] w1env).calls =
          [.deleteTree (normKey ["k"]) w1opts.datacenter] ∧
        (KVDeleteCommand.Run w1opts ["k"] w1env).exitCode =
          (if w1env.deleteTreeErr.isSome then 1 else 0)) ∧
      (w1opts.recurse = false →
        (KVDeleteCommand.Run w1opts ["k"] w1env).calls =
          [.delete (normKey ["k"]) w1opts.datacenter] ∧
        (KVDeleteCommand.Run w1opts ["k"] w1env).exitCode =
          (if w1env.deleteErr.isSome then 1 else 0))) :=
  C1_modify_index_without_cas_continues w1opts ["k"] w1env (by decide)
    (by decide) (by decide) (Or.inl (by decide))

/-- C2 counterexample: the normalization strips only one leading slash,
so on a string beginning with two slashes stripping twice differs from
stripping once, refuting idempotence as claimed. -/
theorem C2_strip_idempotence_counterexample :
    stripLeadingSlash (stripLeadingSlash "//a") ≠ stripLeadingSlash "//a" := by
  decide

/-- C2 (amended): both the export and the delete command use, in every
store call, the argument with exactly one leading slash stripped; the
stripping operation is idempotent on every string that does not begin
with two slash characters (it is not idempotent in general). -/
theorem C2_strip_normalization (a : String)
    (h : startsWithTwoSlashes a = false) :
    stripLeadingSlash (stripLeadingSlash a) = stripLeadingSlash a ∧
    (∀ (opts : ExportOpts) (env : ExportEnv) (c : StoreCall),
        c ∈ (KVExportCommand.Run opts [a] env).calls →
          c.keyOf = stripLeadingSlash a) ∧
    (∀ (opts : DeleteOpts) (env : DeleteEnv) (c : StoreCall),
        c ∈ (KVDeleteCommand.Run opts [a] env).calls →
          c.keyOf = stripLeadingSlash a) := by
  refine ⟨stripLeadingSlash_idem a h, ?_, ?_⟩
  · intro opts env c hc
    exact exportAfterArgs_calls_key opts a env c hc
  · intro opts env c hc
    exact deleteAfterArgs_calls_key opts a env c hc

/-- C2 witness: a concrete argument with a single leading slash. -/
theorem C2_strip_normalization_witness :
    stripLeadingSlash (stripLeadingSlash "/k") = stripLeadingSlash "/k" ∧
    (∀ (opts : ExportOpts) (env : ExportEnv) (c : StoreCall),
        c ∈ (KVExportCommand.Run opts ["/k"] env).calls →
          c.keyOf = stripLeadingSlash "/k") ∧
    (∀ (opts : DeleteOpts) (env : DeleteEnv) (c : StoreCall),
        c ∈ (KVDeleteCommand.Run opts ["/k"] env).calls →
          c.keyOf = stripLeadingSlash "/k") :=
  C2_strip_normalization "/k" (by decide)

/-- C3: a delete invocation whose normalized key is empty (no positional
argument, or an argument that normalizes to the empty string) and with
-recurse unset emits the missing-key error and exits 1, for every value
of the other flags, with no client construction attempted and no store
call dispatched. -/
theorem C3_delete_missing_key (opts : DeleteOpts) (args : List String)
    (env : DeleteEnv) (hrec : opts.recurse = false)
    (hargs : args = [] ∨ ∃ a, args = [a] ∧ stripLeadingSlash a = "") :
    (KVDeleteCommand.Run opts args env).exitCode = 1 ∧
    (KVDeleteCommand.Run opts args env).errors =
      ["Error! Missing KEY argument"] ∧
    (KVDeleteCommand.Run opts args env).clientAttempted = false ∧
    (KVDeleteCommand.Run opts args env).calls = [] := by
  rcases hargs with h | ⟨a, ha, hk⟩
  · subst h
    rw [show KVDeleteCommand.Run opts [] env = deleteAfterArgs opts "" env from rfl,
        deleteAfterArgs_missing_key opts "" env hrec rfl]
    exact ⟨rfl, rfl, rfl, rfl⟩
  · subst ha
    rw [show KVDeleteCommand.Run opts [a] env = deleteAfterArgs opts a env from rfl,
        deleteAfterArgs_missing_key opts a env hrec hk]
    exact ⟨rfl, rfl, rfl, rfl⟩

/-- C3 witness: no positional argument, cas and recurse unset. -/
theorem C3_delete_missing_key_witness :
    (KVDeleteCommand.Run w3opts [] w3env).exitCode = 1 ∧
    (KVDeleteCommand.Run w3opts [] w3env).errors =
      ["Error! Missing KEY argument"] ∧
    (KVDeleteCommand.Run w3opts [] w3env).clientAttempted = false ∧
    (KVDeleteCommand.Run w3opts [] w3env).calls = [] :=
  C3_delete_missing_key w3opts [] w3env (by decide) (Or.inl rfl)

/-- C4: a delete invocation with -cas set and -modify-index zero emits
an error and exits 1, for every argument list and every value of the
other flags, with no client construction attempted and no store call
dispatched. -/
theorem C4_delete_cas_requires_index (opts : DeleteOpts) (args : List String)
    (env : DeleteEnv) (hcas : opts.cas = true) (hmi : opts.modifyIndex = 0) :
    (KVDeleteCommand.Run opts args env).exitCode = 1 ∧
    (KVDeleteCommand.Run opts args env).errors ≠ [] ∧
    (KVDeleteCommand.Run opts args env).clientAttempted = false ∧
    (KVDeleteCommand.Run opts args env).calls = [] := by
  match args with
  | [] => exact deleteAfterArgs_cas_no_index opts "" env hcas hmi
  | [a] => exact deleteAfterArgs_cas_no_index opts a env hcas hmi
  | a :: b :: t => exact ⟨rfl, by simp [KVDeleteCommand.Run], rfl, rfl⟩

/-- C4 witness: cas set and modify index absent. -/
theorem C4_delete_cas_requires_index_witness :
    (KVDeleteCommand.Run w4opts ["k"] w4env).exitCode = 1 ∧
    (KVDeleteCommand.Run w4opts ["k"] w4env).errors ≠ [] ∧
    (KVDeleteCommand.Run w4opts ["k"] w4env).clientAttempted = false ∧
    (KVDeleteCommand.Run w4opts ["k"] w4env).calls = [] :=
  C4_delete_cas_requires_index w4opts ["k"] w4env (by decide) (by decide)

/-- C5: a delete invocation with both -recurse and -cas set exits 1,
independent of the key argument and of the modify index, with no client
construction attempted and no store call dispatched. -/
theorem C5_delete_recurse_cas_exclusive (opts : DeleteOpts) (args : List String)
    (env : DeleteEnv) (hrec : opts.recurse = true) (hcas : opts.cas = true) :
    (KVDeleteCommand.Run opts args env).exitCode = 1 ∧
    (KVDeleteCommand.Run opts args env).errors ≠ [] ∧
    (KVDeleteCommand.Run opts args env).clientAttempted = false ∧
    (KVDeleteCommand.Run opts args env).calls = [] := by
  match args with
  | [] => exact deleteAfterArgs_recurse_cas opts "" env hrec hcas
  | [a] => exact deleteAfterArgs_recurse_cas opts a env hrec hcas
  | a :: b :: t => exact ⟨rfl, by simp [KVDeleteCommand.Run], rfl, rfl⟩

/-- C5 witness: recurse and cas together on a concrete key. -/
theorem C5_delete_recurse_cas_exclusive_witness :
    (KVDeleteCommand.Run w5opts ["k"] w5env).exitCode = 1 ∧
    (KVDeleteCommand.Run w5opts ["k"] w5env).errors ≠ [] ∧
    (KVDeleteCommand.Run w5opts ["k"] w5env).clientAttempted = false ∧
    (KVDeleteCommand.Run w5opts ["k"] w5env).calls = [] :=
  C5_delete_recurse_cas_exclusive w5opts ["k"] w5env (by decide) (by decide)

/-- C6 counterexample: when the store call itself fails with the error
text CAS failed, the transport-failure message coincides with the
swap-rejection message, refuting the claim that the two failure messages
are never equal. -/
theorem C6_cas_failure_messages_counterexample :
    cx6envErr.deleteCASResult = Except.error "CAS failed" ∧
    cx6envFail.deleteCASResult = Except.ok false ∧
    (KVDeleteCommand.Run cx6opts ["k"] cx6envErr).errors =
      (KVDeleteCommand.Run cx6opts ["k"] cx6envFail).errors ∧
    (KVDeleteCommand.Run cx6opts ["k"] cx6envErr).exitCode = 1 ∧
    (KVDeleteCommand.Run cx6opts ["k"] cx6envFail).exitCode = 1 :=
  ⟨rfl, rfl, by decide, by decide, by decide⟩

/-- C6 (amended): for every dispatched compare-and-swap delete, a failing
store call exits 1 with a message embedding the underlying error, an
unsuccessful swap exits 1 with the specific CAS-failed message, exit code
0 occurs exactly when the call succeeds with a true success indicator,
and the two failure messages differ except when the underlying error text
is exactly the text CAS failed. -/
theorem C6_cas_failure_modes (opts : DeleteOpts) (a : String) (env : DeleteEnv)
    (hcas : opts.cas = true) (hrec : opts.recurse = false)
    (hmi : opts.modifyIndex ≠ 0) (hk : stripLeadingSlash a ≠ "")
    (hce : env.clientErr = none) :
    (∀ e, env.deleteCASResult = .error e →
      (KVDeleteCommand.Run opts [a] env).exitCode = 1 ∧
      (KVDeleteCommand.Run opts [a] env).errors =
        [casTransportMsg (stripLeadingSlash a) e]) ∧
    (env.deleteCASResult = .ok false →
      (KVDeleteCommand.Run opts [a] env).exitCode = 1 ∧
      (KVDeleteCommand.Run opts [a] env).errors =
        [casFailedMsg (stripLeadingSlash a)]) ∧
    ((KVDeleteCommand.Run opts [a] env).exitCode = 0 ↔
      env.deleteCASResult = .ok true) ∧
    (∀ e, e ≠ "CAS failed" →
      casTransportMsg (stripLeadingSlash a) e ≠
        casFailedMsg (stripLeadingSlash a)) := by
  have hd := deleteAfterArgs_cas_dispatch opts a env hcas hrec hmi hk hce
  exact ⟨hd.1, hd.2.1, hd.2.2, fun e he => casMsg_distinct _ e he⟩

/-- C6 witness: a concrete compare-and-swap delete whose store call fails
with an ordinary transport error. -/
theorem C6_cas_failure_modes_witness :
    (∀ e, w6env.deleteCASResult = .error e →
      (KVDeleteCommand.Run w6opts ["k"] w6env).exitCode = 1 ∧
      (KVDeleteCommand.Run w6opts ["k"] w6env).errors =
        [casTransportMsg (stripLeadingSlash "k") e]) ∧
    (w6env.deleteCASResult = .ok false →
      (KVDeleteCommand.Run w6opts ["k"] w6env).exitCode = 1 ∧
      (KVDeleteCommand.Run w6opts ["k"] w6env).errors =
        [casFailedMsg (stripLeadingSlash "k")]) ∧
    ((KVDeleteCommand.Run w6opts ["k"] w6env).exitCode = 0 ↔
      w6env.deleteCASResult = .ok true) ∧
    (∀ e, e ≠ "CAS failed" →
      casTransportMsg (stripLeadingSlash "k") e ≠
        casFailedMsg (stripLeadingSlash "k")) :=
  C6_cas_failure_modes w6opts "k" w6env (by decide) (by decide) (by decide)
    (by decide) (by decide)

/-- C7: when the list-by-prefix call answers with a sequence of pairs,
the export command exits 0 and serializes exactly one record per pair,
in store order, each record holding the key, the flags, and the value in
standard base64 (the value byte of the letter x encodes as eA==); the
indented JSON array is the single info output. -/
theorem C7_export_serialization (opts : ExportOpts) (args : List String)
    (env : ExportEnv) (pairs : List KVPair) (hlen : args.length ≤ 1)
    (hce : env.clientErr = none) (hlist : env.listResult = .ok pairs) :
    (KVExportCommand.Run opts args env).exitCode = 0 ∧
    (KVExportCommand.Run opts args env).exported = pairs.map toExportEntry ∧
    (KVExportCommand.Run opts args env).exported.length = pairs.length ∧
    (KVExportCommand.Run opts args env).infos =
      [marshalIndent (pairs.map toExportEntry)] ∧
    (∀ p : KVPair, (toExportEntry p).Key = p.Key ∧
      (toExportEntry p).Flags = p.Flags ∧
      (toExportEntry p).Value = base64Encode p.Value) ∧
    base64Encode ("x".toList.map Char.toNat) = "eA==" := by
  have hx : base64Encode ("x".toList.map Char.toNat) = "eA==" := by decide
  have hp : ∀ p : KVPair, (toExportEntry p).Key = p.Key ∧
      (toExportEntry p).Flags = p.Flags ∧
      (toExportEntry p).Value = base64Encode p.Value :=
    fun p => ⟨rfl, rfl, rfl⟩
  match args with
  | [] =>
    have h := exportAfterArgs_ok opts "" env pairs hce hlist
    have hlength : (exportAfterArgs opts "" env).exported.length = pairs.length := by
      rw [h.2.1]; exact List.length_map _ _
    exact ⟨h.1, h.2.1, hlength, h.2.2.1, hp, hx⟩
  | [a] =>
    have h := exportAfterArgs_ok opts a env pairs hce hlist
    have hlength : (exportAfterArgs opts a env).exported.length = pairs.length := by
      rw [h.2.1]; exact List.length_map _ _
    exact ⟨h.1, h.2.1, hlength, h.2.2.1, hp, hx⟩
  | a :: b :: t => simp at hlen

/-- C7 witness: the spec example, two pairs under prefix a with
one-letter values. -/
theorem C7_export_serialization_witness :
    (KVExportCommand.Run w7opts ["a"] w7env).exitCode = 0 ∧
    (KVExportCommand.Run w7opts ["a"] w7env).exported =
      [⟨"a", 0, [120]⟩, ⟨"a/b", 0, [121]⟩].map toExportEntry ∧
    (KVExportCommand.Run w7opts ["a"] w7env).exported.length =
      ([⟨"a", 0, [120]⟩, ⟨"a/b", 0, [121]⟩] : List KVPair).length ∧
    (KVExportCommand.Run w7opts ["a"] w7env).infos =
      [marshalIndent ([⟨"a", 0, [120]⟩, ⟨"a/b", 0, [121]⟩].map toExportEntry)] ∧
    (∀ p : KVPair, (toExportEntry p).Key = p.Key ∧
      (toExportEntry p).Flags = p.Flags ∧
      (toExportEntry p).Value = base64Encode p.Value) ∧
    base64Encode ("x".toList.map Char.toNat) = "eA==" :=
  C7_export_serialization w7opts ["a"] w7env
    [⟨"a", 0, [120]⟩, ⟨"a/b", 0, [121]⟩] (by decide) rfl rfl

/-- C8: a snapshot restore invocation with zero positional arguments or
with two or more exits 1 without attempting to open any file, without
client construction, and without invoking the restore operation. -/
theorem C8_restore_arg_count (opts : RestoreOpts) (args : List String)
    (env : RestoreEnv) (h : args.length ≠ 1) :
    (SnapshotRestoreCommand.Run opts args env).exitCode = 1 ∧
    (SnapshotRestoreCommand.Run opts args env).openAttempted = false ∧
    (SnapshotRestoreCommand.Run opts args env).restoreCalled = false ∧
    (SnapshotRestoreCommand.Run opts args env).clientAttempted = false := by
  match args with
  | [] => exact ⟨rfl, rfl, rfl, rfl⟩
  | [a] => exact absurd rfl h
  | a :: b :: t => exact ⟨rfl, rfl, rfl, rfl⟩

/-- C8 witness: zero positional arguments. -/
theorem C8_restore_arg_count_witness :
    (SnapshotRestoreCommand.Run w8opts [] w8env).exitCode = 1 ∧
    (SnapshotRestoreCommand.Run w8opts [] w8env).openAttempted = false ∧
    (SnapshotRestoreCommand.Run w8opts [] w8env).restoreCalled = false ∧
    (SnapshotRestoreCommand.Run w8opts [] w8env).clientAttempted = false :=
  C8_restore_arg_count w8opts [] w8env (by decide)

/-- C9: when opening the snapshot file fails the restore operation is
never invoked and the command exits 1; moreover, for every environment,
the restore call happens only after the file has been opened
successfully. -/
theorem C9_restore_requires_open (opts : RestoreOpts) (args : List String)
    (env : RestoreEnv) (h : env.openErr.isSome = true) :
    (SnapshotRestoreCommand.Run opts args env).restoreCalled = false ∧
    (SnapshotRestoreCommand.Run opts args env).exitCode = 1 ∧
    (∀ env2 : RestoreEnv,
      (SnapshotRestoreCommand.Run opts args env2).restoreCalled = true →
        env2.openErr = none ∧
        (SnapshotRestoreCommand.Run opts args env2).openAttempted = true) := by
  obtain ⟨dt, ce, oe, re⟩ := env
  cases oe with
  | none => simp at h
  | some e =>
    refine ⟨?_, ?_, ?_⟩
    · match args with
      | [] => rfl
      | [a] => cases ce <;> rfl
      | a :: b :: t => rfl
    · match args with
      | [] => rfl
      | [a] => cases ce <;> rfl
      | a :: b :: t => rfl
    · intro env2 h2
      obtain ⟨dt2, ce2, oe2, re2⟩ := env2
      match args with
      | [] => simp [SnapshotRestoreCommand.Run] at h2
      | [a] =>
        cases ce2 with
        | some e2 => simp [SnapshotRestoreCommand.Run] at h2
        | none =>
          cases oe2 with
          | some e2 => simp [SnapshotRestoreCommand.Run] at h2
          | none => exact ⟨rfl, by cases re2 <;> rfl⟩
      | a :: b :: t => simp [SnapshotRestoreCommand.Run] at h2

/-- C9 witness: a concrete invocation whose file open fails. -/
theorem C9_restore_requires_open_witness :
    (SnapshotRestoreCommand.Run w9opts ["f"] w9env).restoreCalled = false ∧
    (SnapshotRestoreCommand.Run w9opts ["f"] w9env).exitCode = 1 ∧
    (∀ env2 : RestoreEnv,
      (SnapshotRestoreCommand.Run w9opts ["f"] env2).restoreCalled = true →
        env2.openErr = none ∧
        (SnapshotRestoreCommand.Run w9opts ["f"] env2).openAttempted = true) :=
  C9_restore_requires_open w9opts ["f"] w9env (by decide)

/-- C10: the export command copies the flag token into the client
configuration whenever the flag is nonempty, overriding any
default-config token, whereas the delete command copies the flag token
only when the default-config token is empty, so for delete a token
already present in the default configuration takes precedence over the
flag. -/
theorem C10_token_precedence (eopts : ExportOpts) (dopts : DeleteOpts)
    (a : String) (eenv : ExportEnv) (denv : DeleteEnv)
    (hk : stripLeadingSlash a ≠ "") (hcas : dopts.cas = false) :
    (KVExportCommand.Run eopts [a] eenv).clientAttempted = true ∧
    (KVExportCommand.Run eopts [a] eenv).clientToken =
      (if eopts.token ≠ "" then eopts.token else eenv.defaultToken) ∧
    (KVDeleteCommand.Run dopts [a] denv).clientAttempted = true ∧
    (KVDeleteCommand.Run dopts [a] denv).clientToken =
      (if denv.defaultToken = "" then dopts.token else denv.defaultToken) ∧
    (eopts.token ≠ "" →
      (KVExportCommand.Run eopts [a] eenv).clientToken = eopts.token) ∧
    (denv.defaultToken ≠ "" →
      (KVDeleteCommand.Run dopts [a] denv).clientToken = denv.defaultToken) := by
  have he := exportAfterArgs_client_token eopts a eenv
  have hd := deleteAfterArgs_client_token dopts a denv hcas hk
  refine ⟨he.1, he.2, hd.1, hd.2, ?_, ?_⟩
  · intro h2
    rw [show (KVExportCommand.Run eopts [a] eenv).clientToken =
          (exportAfterArgs eopts a eenv).clientToken from rfl, he.2, if_pos h2]
  · intro h1
    rw [show (KVDeleteCommand.Run dopts [a] denv).clientToken =
          (deleteAfterArgs dopts a denv).clientToken from rfl, hd.2, if_neg h1]

/-- C10 witness: both a flag token and a default-config token present:
export ends with the flag token, delete with the default one. -/
theorem C10_token_precedence_witness :
    (KVExportCommand.Run w10eopts ["k"] w10eenv).clientAttempted = true ∧
    (KVExportCommand.Run w10eopts ["k"] w10eenv).clientToken =
      (if w10eopts.token ≠ "" then w10eopts.token else w10eenv.defaultToken) ∧
    (KVDeleteCommand.Run w10dopts ["k"] w10denv).clientAttempted = true ∧
    (KVDeleteCommand.Run w10dopts ["k"] w10denv).clientToken =
      (if w10denv.defaultToken = "" then w10dopts.token
       else w10denv.defaultToken) ∧
    (w10eopts.token ≠ "" →
      (KVExportCommand.Run w10eopts ["k"] w10eenv).clientToken =
        w10eopts.token) ∧
    (w10denv.defaultToken ≠ "" →
      (KVDeleteCommand.Run w10dopts ["k"] w10denv).clientToken =
        w10denv.defaultToken) :=
  C10_token_precedence w10eopts w10dopts "k" w10eenv w10denv (by decide)
    (by decide)

end Consul
